import Mathlib

/-!
# Verification of the Ouroboros agent engine

A shallow embedding, in Lean 4, of the orchestration engine of the
Ouroboros repository: the LangGraph workflow of `src/graph.py`, the
per-field merge rules of `src/state.py`, the tool dispatcher of
`src/tools.py` and `src/file_tools.py`, the command filter of
`src/sandbox.py`, and the ClickHouse checkpointer of
`src/checkpointer.py`.  Pure functions of the Python source become Lean
functions; external effects (the reasoning collaborators, the Docker
daemon, the ClickHouse client, the host file system) become explicit
parameters or nondeterministic choices of a step relation.
-/

namespace Ouroboros

/-! ## Python dict operations

`AgentState.files` (src/state.py line 22) is declared
`Annotated[Dict[str, str], operator.ior]`: LangGraph merges each node
update into the running state with `old |= update`.  We model a Python
`dict` as an association list in insertion order, with CPython's
semantics: lookup finds the unique binding of a key, assignment to an
existing key replaces its value in place, assignment to a fresh key
appends. -/

/-- Dict lookup: first binding of the key (bindings are unique in a real
dict, so first = only). -/
def dlookup {α : Type} (d : List (String × α)) (k : String) : Option α :=
  match d with
  | [] => none
  | (k', v) :: rest => if k' = k then some v else dlookup rest k

/-- CPython `d[k] = v`: replace in place if the key exists, else append. -/
def dinsert {α : Type} (d : List (String × α)) (k : String) (v : α) :
    List (String × α) :=
  match d with
  | [] => [(k, v)]
  | (k', v') :: rest =>
      if k' = k then (k', v) :: rest else (k', v') :: dinsert rest k v

/-- `operator.ior` on dicts, the reducer LangGraph applies to the `files`
channel: `old |= new` assigns every binding of `new` into `old`. -/
def dictIor {α : Type} (old new : List (String × α)) : List (String × α) :=
  new.foldl (fun acc kv => dinsert acc kv.1 kv.2) old

/-! ## The workflow engine (src/graph.py)

The LangGraph `StateGraph` of graph.py, as a nondeterministic transition
system.  `RouteState` carries exactly the `AgentState` fields that the
node updates and the routing functions `after_think` / `after_execute`
read; the reasoning collaborators (`thinker`, `code_generator`,
`synthesizer`, …) are opaque remote calls, so their outputs are
universally quantified arguments of the step constructors. -/

/-- The nodes of the compiled graph, plus the `END` sentinel. -/
inductive Node where
  | think | tool_node | generate_code | execute | reflect
  | synthesize | lesson | memory | endNode
  deriving DecidableEq, Repr

/-- The routing-relevant fields of `AgentState` (src/state.py). -/
structure RouteState where
  needs_code : Bool
  tool_choice : String
  tool_usage_count : Nat
  is_solved : Bool
  iteration : Nat
  response : String
  deriving DecidableEq, Repr

/-- The structured decision returned by the `Thinker` collaborator
(`cognition.py` coerces `needs_code` to a bool and `tool_choice` to a
string before the graph sees them). -/
structure ThinkerResult where
  needs_code : Bool
  tool_choice : String
  response : String
  deriving DecidableEq, Repr

/-- graph.py lines 122-126: the tool safety check inside `think_node`.
If the decision names a tool but `tool_usage_count` is already ≥ 3, the
choice is downgraded to `"none"`, and when no code is requested and the
draft response is empty a fallback message is supplied. -/
def toolSafety (r : ThinkerResult) (count : Nat) : ThinkerResult :=
  if r.tool_choice ≠ "none" ∧ r.tool_choice ≠ "" ∧ count ≥ 3 then
    { r with
      tool_choice := "none"
      response :=
        if r.needs_code = false ∧ r.response = "" then
          "I cannot process further tool requests due to loop limits."
        else r.response }
  else r

/-- The effect of `think_node`'s returned update on the routing fields,
after the per-field merge (graph.py lines 130-148): `needs_code`,
`tool_choice` and `response` are plain-overwrite channels, `iteration`
is reset to 0, `is_solved` is set to `not needs_code and tool_choice ==
"none"`, and `tool_usage_count` is untouched. -/
def thinkStep (s : RouteState) (r : ThinkerResult) : RouteState :=
  let r' := toolSafety r s.tool_usage_count
  { s with
    needs_code := r'.needs_code
    tool_choice := r'.tool_choice
    iteration := 0
    is_solved := (r'.needs_code = false ∧ r'.tool_choice = "none" : Bool)
    response :=
      if r'.needs_code = false ∧ r'.tool_choice = "none" then r'.response
      else "" }

/-- `after_think` (graph.py lines 362-371). -/
def afterThink (s : RouteState) : Node :=
  if s.needs_code then Node.generate_code
  else if s.tool_choice ≠ "none" ∧ s.tool_choice ≠ "" then
    if s.tool_usage_count ≥ 3 then Node.lesson else Node.tool_node
  else Node.lesson

/-- `after_execute` (graph.py lines 373-376). -/
def afterExecute (s : RouteState) : Node :=
  if s.is_solved then Node.synthesize
  else if s.iteration ≥ 3 then Node.synthesize
  else Node.reflect

/-- One step of the compiled workflow: the node at the current position
runs, its update is merged into the state, and the graph's (conditional)
edges choose the next node.  Collaborator outputs are arbitrary. -/
inductive WStep : Node × RouteState → Node × RouteState → Prop where
  | think (s : RouteState) (r : ThinkerResult) :
      WStep (Node.think, s) (afterThink (thinkStep s r), thinkStep s r)
  | tool (s : RouteState) :
      WStep (Node.tool_node, s)
        (Node.think,
          { s with tool_choice := "none",
                   tool_usage_count := s.tool_usage_count + 1 })
  | generate (s : RouteState) :
      WStep (Node.generate_code, s)
        (Node.execute, { s with iteration := s.iteration + 1 })
  | execute (s : RouteState) (solved : Bool) :
      WStep (Node.execute, s)
        (afterExecute { s with is_solved := solved },
          { s with is_solved := solved })
  | reflect (s : RouteState) :
      WStep (Node.reflect, s) (Node.generate_code, s)
  | synthesize (s : RouteState) (resp : String) :
      WStep (Node.synthesize, s) (Node.lesson, { s with response := resp })
  | lesson (s : RouteState) :
      WStep (Node.lesson, s) (Node.memory, s)
  | memory (s : RouteState) :
      WStep (Node.memory, s) (Node.endNode, s)

/-- Reachability along workflow steps. -/
def WReach : Node × RouteState → Node × RouteState → Prop :=
  Relation.ReflTransGen WStep

/-- The inductive invariant for the iteration bound: `iteration` is at
most 2 on entry to `generate_code` and `reflect`, and at most 3
everywhere. -/
def iterInv (c : Node × RouteState) : Prop :=
  ((c.1 = Node.generate_code ∨ c.1 = Node.reflect) → c.2.iteration ≤ 2) ∧
    c.2.iteration ≤ 3

/-! ## Substring search

Python's `needle in haystack` on strings, over the character lists of
the two strings. -/

/-- `subOf needle hay`: does `needle` occur contiguously in `hay`?
(Python `needle in hay`; an empty needle occurs in everything.) -/
def subOf (needle : List Char) : List Char → Bool
  | [] => needle.isEmpty
  | c :: rest => needle.isPrefixOf (c :: rest) || subOf needle rest

/-- Python `needle in hay` for strings. -/
def strContains (hay needle : String) : Bool :=
  subOf needle.toList hay.toList

/-! ## The execute node (graph.py lines 195-272)

`execute_node` reads `files`/`commands` from the state, invokes the
sandbox, and scans the returned log entries for failures.  The sandbox
is an external effect: its result (logs and artifacts) is a parameter.
The fire-and-forget metrics insert (guarded by `try/except`) has no
effect on the returned update and is omitted.  Wall-clock timestamps
are opaque tokens, modelled as `Nat`. -/

/-- A sandbox log entry `{timestamp, type, content}`. -/
structure LogEntry where
  timestamp : Nat
  type : String
  content : String
  deriving DecidableEq, Repr

/-- The failure-marker substrings scanned for in `stderr` entries
(graph.py lines 238-243). -/
def failureMarkers : List String :=
  ["Traceback", "Error:", "IndentationError", "SyntaxError",
   "NameError", "TypeError", "ValueError", "ImportError",
   "ModuleNotFoundError", "AttributeError", "KeyError",
   "ZeroDivisionError", "FileNotFoundError"]

/-- `any(marker in content for marker in [...])`. -/
def stderrHasMarker (content : String) : Bool :=
  failureMarkers.any (fun m => strContains content m)

/-- The scanning loop of graph.py lines 227-244: threads
`(has_errors, stdout_accum, stderr_accum)` over the log list. -/
def logScanStep (acc : Bool × List String × List String) (log : LogEntry) :
    Bool × List String × List String :=
  if log.type = "error" then (true, acc.2.1, acc.2.2 ++ [log.content])
  else if log.type = "stdout" then (acc.1, acc.2.1 ++ [log.content], acc.2.2)
  else if log.type = "stderr" then
    (acc.1 || stderrHasMarker log.content, acc.2.1, acc.2.2 ++ [log.content])
  else acc

def logScan (logs : List LogEntry) : Bool × List String × List String :=
  logs.foldl logScanStep (false, [], [])

/-- The update dict returned by `execute_node`.  `retrieved_files` is
`none` when the update omits the key (the empty-commands early return
does not mention it). -/
structure ExecUpdate where
  execution_logs : List LogEntry
  execution_result : String
  execution_error : String
  is_solved : Bool
  retrieved_files : Option (List (String × String))
  deriving DecidableEq, Repr

/-- `execute_node`: `now` is the wall-clock token used for the
early-return log entry; `sandboxRes` is the `(logs, artifacts)` pair
`sandbox.execute_batch` would return. -/
def executeNode (now : Nat)
    (sandboxRes : List LogEntry × List (String × String))
    (commands : List String) : ExecUpdate :=
  if commands = [] then
    { execution_logs := [⟨now, "error", "No commands generated."⟩]
      execution_result := ""
      execution_error := "No commands generated."
      is_solved := false
      retrieved_files := none }
  else
    let logs := sandboxRes.1
    let scanned := logScan logs
    { execution_logs := logs
      execution_result := String.intercalate "\n" scanned.2.1
      execution_error := String.intercalate "\n" scanned.2.2
      is_solved := !scanned.1
      retrieved_files := some sandboxRes.2 }

/-- The entry predicate of C5: type `error`, or type `stderr` with a
recognized failure marker in the content. -/
def isFailureEntry (l : LogEntry) : Bool :=
  l.type = "error" || (l.type = "stderr" && stderrHasMarker l.content)

/-! ## The think-node "reset" through the per-channel reducers -/

/-- The per-run execution fields of `AgentState` (src/state.py lines
21-36) that think_node's `# Reset execution state` block writes. -/
structure ExecFields where
  files : List (String × String)
  commands : List String
  execution_logs : List LogEntry
  execution_result : String
  retrieved_files : List (String × String)
  reflections : List String
  iteration : Nat
  deriving DecidableEq, Repr

/-- The result of merging think_node's reset values (graph.py lines
139-147: `files: {}`, `commands: []`, `execution_logs: []`,
`execution_result: ""`, `retrieved_files: {}`, `reflections: []`,
`iteration: 0`) into the state, per the channel reducers of state.py:
`files` is an `operator.ior` channel, `execution_logs` and
`reflections` are `operator.add` channels, the rest are plain
last-value-wins channels. -/
def thinkResetMerge (s : ExecFields) : ExecFields :=
  { files := dictIor s.files []
    commands := []
    execution_logs := s.execution_logs ++ []
    execution_result := ""
    retrieved_files := []
    reflections := s.reflections ++ []
    iteration := 0 }

/-! ## The sandbox command filter (sandbox.py lines 56-67) -/

/-- Python `str.strip()` whitespace set (ASCII). -/
def pyWs (c : Char) : Bool :=
  c = ' ' || c = '\t' || c = '\n' || c = '\r' || c = '\x0b' || c = '\x0c'

/-- Python `cmd.strip()`. -/
def pyStrip (s : String) : String :=
  String.mk (((s.toList.dropWhile pyWs).reverse.dropWhile pyWs).reverse)

/-- The `skip_prefixes` tuple of `execute_batch`: package-manager
update/install commands dropped because the base image is prewarmed. -/
def skipPrefixes : List String :=
  ["apt-get update", "apt-get install", "pip install decimal",
   "pip3 install decimal"]

/-- `any(cmd_stripped.startswith(p) for p in skip_prefixes)`. -/
def isSkipped (cmd : String) : Bool :=
  skipPrefixes.any (fun p => p.toList.isPrefixOf (pyStrip cmd).toList)

/-- The flag-appending step of the loop body: a kept command that
mentions `pip install`/`pip3 install` but not `--break-system-packages`
is replaced by its stripped form with the flag appended; any other kept
command is passed through unchanged. -/
def addBreakFlag (cmd : String) : String :=
  let s := pyStrip cmd
  if (strContains s "pip install" || strContains s "pip3 install") &&
      !strContains s "--break-system-packages" then
    s ++ " --break-system-packages"
  else cmd

/-- The `filtered_commands` loop of `execute_batch`. -/
def filterCommands : List String → List String
  | [] => []
  | cmd :: rest =>
      if isSkipped cmd then filterCommands rest
      else addBreakFlag cmd :: filterCommands rest

/-! ## Host file tools (src/file_tools.py)

The host file system is modelled as a flat association list
filename → content, read and written with the dict operations above
(`os.makedirs` on the flat model is a no-op).  Handlers that mutate the
file system return it alongside their string result. -/

/-- A JSON scalar in a tool-argument payload.  Non-string payloads for
string-typed arguments are abstracted by their decimal rendering. -/
inductive PyVal where
  | str (s : String)
  | int (n : Int)
  deriving DecidableEq, Repr

/-- Python truthiness of `args.get(key)`: absent, `""` and `0` are
falsy. -/
def pyTruthy : Option PyVal → Bool
  | none => false
  | some (.str s) => s != ""
  | some (.int n) => n != 0

/-- Rendering of a `PyVal` into the string a handler consumes. -/
def argRender : PyVal → String
  | .str s => s
  | .int n => toString n

/-- `f.readlines()`: split into lines, each keeping its trailing
newline; a final fragment without a newline is its own line. -/
def pyReadlinesAux (acc : List Char) : List Char → List String
  | [] => if acc.isEmpty then [] else [String.mk acc.reverse]
  | c :: rest =>
      if c = '\n' then
        String.mk (c :: acc).reverse :: pyReadlinesAux [] rest
      else pyReadlinesAux (c :: acc) rest

def pyReadlines (s : String) : List String :=
  pyReadlinesAux [] s.toList

/-- `read_file` (file_tools.py lines 6-29).  A truthy non-int line
argument makes the handler's arithmetic raise inside its `try`; the
caught exception is rendered `"Error reading file: …"` with the Python
exception text elided in this model. -/
def read_file (fs : List (String × String)) (path : String)
    (start_line end_line : Option PyVal) : String :=
  match dlookup fs path with
  | none => "Error: File '" ++ path ++ "' not found."
  | some content =>
      let badArg : Option PyVal → Bool := fun v =>
        match v with
        | some (.str s) => s != ""
        | _ => false
      if badArg start_line || badArg end_line then
        "Error reading file: ..."
      else
        let lines := pyReadlines content
        let total : Int := lines.length
        let start0 : Int :=
          match start_line with
          | some (.int n) => if n ≠ 0 then n - 1 else 0
          | _ => 0
        let end0 : Int :=
          match end_line with
          | some (.int n) => if n ≠ 0 then n else total
          | _ => total
        let start1 : Int := max 0 (min start0 total)
        let end1 : Int := max start1 (min end0 total)
        let body := String.join ((lines.drop start1.toNat).take
          (end1 - start1).toNat)
        if pyTruthy start_line || pyTruthy end_line then
          "--- " ++ path ++ " (" ++ toString (start1 + 1) ++ "-" ++
            toString end1 ++ "/" ++ toString total ++ ") ---\n" ++ body
        else body

/-- `write_file` (file_tools.py lines 32-40): create/overwrite. -/
def write_file (fs : List (String × String)) (path content : String) :
    String × List (String × String) :=
  let n := content.length
  ("Successfully wrote " ++ toString n ++ " chars to " ++ path,
    dinsert fs path content)

/-- The recursion behind `content.replace(old, new, 1)` for a non-empty
`old`: scan for the first position where `old` is a prefix, splice `new`
there, leave everything else untouched. -/
def replFirstAux (old new : List Char) : List Char → List Char
  | [] => []
  | c :: rest =>
      if old.isPrefixOf (c :: rest) then new ++ (c :: rest).drop old.length
      else c :: replFirstAux old new rest

/-- Python `s.replace(old, new, 1)` (an empty `old` matches at the very
front, inserting `new` there). -/
def pyReplaceFirst (s old new : String) : String :=
  if old.toList.isEmpty then String.mk (new.toList ++ s.toList)
  else String.mk (replFirstAux old.toList new.toList s.toList)

/-- `edit_file` (file_tools.py lines 43-67): exact-substring replace,
first occurrence only, with the two verbatim-mismatch error paths. -/
def edit_file (fs : List (String × String))
    (path old_text new_text : String) :
    String × List (String × String) :=
  match dlookup fs path with
  | none => ("Error: File '" ++ path ++ "' not found.", fs)
  | some content =>
      if strContains content old_text = false then
        if strContains content (pyStrip old_text) = false then
          ("Error: 'old_text' not found in " ++ path ++
            ". Please check indentation/whitespace exact match.", fs)
        else
          ("Error: Exact 'old_text' match failed. Be precise with whitespace.",
            fs)
      else
        ("Successfully edited " ++ path,
          dinsert fs path (pyReplaceFirst content old_text new_text))

/-! ## The tool dispatcher (src/tools.py)

`execute_tool` routes a tool name and JSON argument payload to its
handler.  The external collaborators it calls — `json.loads`, the
ClickHouse query helper `db_query`, the RAG retrievers, `os.walk`-based
directory listing and `subprocess.run` — are fields of a `ToolEnv`.
The outer `except` that renders an unexpected handler exception as
`"TOOL EXECUTION ERROR: …"` is unreachable in this pure model. -/

/-- A row of `retrieve_similar` (`task`/`code`/`result` keys). -/
structure SimRow where
  task : String
  code : String
  result : String
  deriving DecidableEq, Repr

/-- A row of `retrieve_documents` (`filename`/`content` keys). -/
structure DocRow where
  filename : String
  content : String
  deriving DecidableEq, Repr

/-- The outcome of `subprocess.run` (`Except.error` models a raised
exception such as a timeout). -/
structure CmdResult where
  returncode : Int
  stdout : String
  stderr : String
  deriving DecidableEq, Repr

/-- The dispatcher's external collaborators. -/
structure ToolEnv where
  parseJson : String → Option (List (String × PyVal))
  db_query : PyVal → List (List (String × String))
  dumpsRows : List (List (String × String)) → String
  retrieve_similar : PyVal → Nat → List SimRow
  retrieve_documents : PyVal → List DocRow
  list_files : PyVal → PyVal → String
  subprocessRun : PyVal → Option PyVal → Except String CmdResult

/-- `run_command` (file_tools.py lines 93-116). -/
def run_command (env : ToolEnv) (cmd : PyVal) (cwd : Option PyVal) :
    String :=
  match env.subprocessRun cmd cwd with
  | .error e => "Error running command: " ++ e
  | .ok r =>
      let base := "Exit Code: " ++ toString r.returncode ++ "\nSTDOUT:\n" ++
        r.stdout ++ "\n"
      if r.stderr != "" then base ++ "STDERR:\n" ++ r.stderr ++ "\n"
      else base

/-- The `sql_db` branch of the dispatcher (tools.py lines 28-36). -/
def sqlDbResult (env : ToolEnv) (q : PyVal) : String :=
  let rows := env.db_query q
  match rows with
  | r0 :: _ =>
      match dlookup r0 "error" with
      | some e => "SQL ERROR: " ++ e
      | none =>
          let rs := env.dumpsRows rows
          if rs.length > 5000 then rs.take 5000 ++ "\n... (truncated)"
          else rs
  | [] => "No results found."

/-- The `rag_search` branch (tools.py lines 38-46). -/
def ragSearchResult (env : ToolEnv) (q : PyVal) : String :=
  let results := env.retrieve_similar q 3
  if results.isEmpty then "No similar solutions found."
  else
    String.intercalate "\n\n" (results.map fun r =>
      "Task: " ++ r.task ++ "\nCode Snippet: " ++ r.code.take 200 ++
        "...\nResult: " ++ r.result.take 200 ++ "...")

/-- The `search_documents` branch (tools.py lines 48-53). -/
def searchDocsResult (env : ToolEnv) (q : PyVal) : String :=
  let results := env.retrieve_documents q
  if results.isEmpty then "No relevant documents found."
  else
    String.intercalate "\n\n" (results.map fun d =>
      "--- Source: " ++ d.filename ++ " ---\n" ++ d.content)

/-- The argument payload: either an already-parsed dict or a raw JSON
string (`isinstance(args_json, dict)` distinguishes the two). -/
inductive ArgsInput where
  | dict (d : List (String × PyVal))
  | raw (s : String)
  deriving Repr

/-- The tool-name case dispatch of `execute_tool` (tools.py lines
27-84), after argument parsing.  File handlers thread the modelled file
system. -/
def execute_tool_core (env : ToolEnv) (fs : List (String × String))
    (tool_name : String) (args : List (String × PyVal)) :
    String × List (String × String) :=
  if tool_name = "sql_db" then
    let qv := dlookup args "query"
    if pyTruthy qv = false then ("ERROR: Missing 'query'", fs)
    else (sqlDbResult env (qv.getD (.str "")), fs)
  else if tool_name = "rag_search" then
    let qv := dlookup args "query"
    if pyTruthy qv = false then ("ERROR: Missing 'query'", fs)
    else (ragSearchResult env (qv.getD (.str "")), fs)
  else if tool_name = "search_documents" then
    let qv := dlookup args "query"
    if pyTruthy qv = false then ("ERROR: Missing 'query'", fs)
    else (searchDocsResult env (qv.getD (.str "")), fs)
  else if tool_name = "read_file" then
    let pv := dlookup args "path"
    if pyTruthy pv = false then ("ERROR: Missing 'path'", fs)
    else
      (read_file fs (argRender (pv.getD (.str "")))
        (dlookup args "start_line") (dlookup args "end_line"), fs)
  else if tool_name = "write_file" then
    let pv := dlookup args "path"
    let cv := dlookup args "content"
    if pyTruthy pv = false ∨ cv = none then
      ("ERROR: Missing 'path' or 'content'", fs)
    else
      write_file fs (argRender (pv.getD (.str "")))
        (argRender (cv.getD (.str "")))
  else if tool_name = "edit_file" then
    let pv := dlookup args "path"
    let ov := dlookup args "old_text"
    let nv := dlookup args "new_text"
    if pyTruthy pv = false ∨ ov = none ∨ nv = none then
      ("ERROR: Missing 'path', 'old_text', or 'new_text'", fs)
    else
      edit_file fs (argRender (pv.getD (.str "")))
        (argRender (ov.getD (.str ""))) (argRender (nv.getD (.str "")))
  else if tool_name = "list_files" then
    let pv := (dlookup args "path").getD (.str ".")
    let dv := (dlookup args "max_depth").getD (.int 2)
    (env.list_files pv dv, fs)
  else if tool_name = "run_command" then
    let cv := dlookup args "command"
    if pyTruthy cv = false then ("ERROR: Missing 'command'", fs)
    else (run_command env (cv.getD (.str "")) (dlookup args "cwd"), fs)
  else ("ERROR: Unknown tool '" ++ tool_name ++ "'", fs)

/-- `execute_tool` (tools.py lines 7-87): parse the argument payload,
then dispatch. -/
def execute_tool (env : ToolEnv) (fs : List (String × String))
    (tool_name : String) (args_json : ArgsInput) :
    String × List (String × String) :=
  match args_json with
  | .dict d => execute_tool_core env fs tool_name d
  | .raw s =>
      match env.parseJson s with
      | none => ("ERROR: Invalid JSON arguments: " ++ s, fs)
      | some d => execute_tool_core env fs tool_name d

/-- A concrete environment with inert collaborators, for evaluating the
dispatcher on concrete inputs. -/
def envStub : ToolEnv where
  parseJson := fun _ => none
  db_query := fun _ => []
  dumpsRows := fun _ => ""
  retrieve_similar := fun _ _ => []
  retrieve_documents := fun _ => []
  list_files := fun _ _ => ""
  subprocessRun := fun _ _ => .error ""

/-! ## The ClickHouse checkpointer (src/checkpointer.py)

The two tables of db.py (`checkpoints`, a
`ReplacingMergeTree(created_at)` keyed on
`(thread_id, checkpoint_ns, checkpoint_id)`, and `checkpoint_writes`, a
plain `MergeTree`) are modelled as row lists in insertion order.  The
`langchain_core.load` `dumps`/`loads` serializers and the JSON metadata
codec are abstract parameters; the channel-value payloads they
serialize are type parameters. -/

/-- `config["configurable"]`: `checkpoint_ns` defaults to `""` when the
key is absent, `checkpoint_id` is `none` when absent. -/
structure RunCfg where
  thread_id : String
  checkpoint_ns : String
  checkpoint_id : Option String
  deriving DecidableEq, Repr

/-- A LangGraph checkpoint: its id plus the channel values (the Run
State snapshot — `files`, `response`, `citations`, …), abstract here. -/
structure Checkpoint (V : Type) where
  id : String
  channel_values : V
  deriving DecidableEq, Repr

/-- A row of the `checkpoints` table (db.py lines 81-92). -/
structure CPRow (B : Type) where
  thread_id : String
  checkpoint_ns : String
  checkpoint_id : String
  parent_checkpoint_id : String
  checkpoint_data : B
  metadata_data : String
  created_at : Nat
  deriving DecidableEq, Repr

/-- A row of the `checkpoint_writes` table (db.py lines 95-108). -/
structure WriteRow (C : Type) where
  thread_id : String
  checkpoint_ns : String
  checkpoint_id : String
  task_id : String
  idx : Nat
  channel : String
  type_tag : String
  blob : C
  deriving DecidableEq, Repr

/-- The checkpointer's persistent state. -/
structure CkptDb (B C : Type) where
  checkpoints : List (CPRow B)
  checkpoint_writes : List (WriteRow C)
  deriving Repr

/-- A `dumps`/`loads` serializer pair. -/
structure Serde (α β : Type) where
  dumps : α → β
  loads : β → α

/-- The metadata codec (`json.dumps`/`json.loads`), with the Python
truthiness of the metadata dict and the empty dict. -/
structure MetaSerde (M : Type) where
  dumps : M → String
  loads : String → M
  truthy : M → Bool
  empty : M

/-- The assembled tuple `get_tuple` returns. -/
structure CheckpointTuple (V M W : Type) where
  config : RunCfg
  checkpoint : Checkpoint V
  metadata : M
  parent_config : Option RunCfg
  pending_writes : List (String × String × W)

/-- `ClickHouseCheckpointer.put` (checkpointer.py lines 20-52): insert
one serialized row (`created_at` is the insertion clock `now`) and
return the updated config. -/
def ckptPut {V B C M : Type} (ser : Serde (Checkpoint V) B)
    (mser : MetaSerde M) (db : CkptDb B C) (config : RunCfg)
    (checkpoint : Checkpoint V) (metadata : M) (now : Nat) :
    CkptDb B C × RunCfg :=
  let row : CPRow B :=
    { thread_id := config.thread_id
      checkpoint_ns := config.checkpoint_ns
      checkpoint_id := checkpoint.id
      parent_checkpoint_id := (config.checkpoint_id).getD ""
      checkpoint_data := ser.dumps checkpoint
      metadata_data :=
        if mser.truthy metadata then mser.dumps metadata else "{}"
      created_at := now }
  ({ db with checkpoints := db.checkpoints ++ [row] },
    { thread_id := config.thread_id
      checkpoint_ns := config.checkpoint_ns
      checkpoint_id := some checkpoint.id })

/-- The row construction of `put_writes`
(`for idx, (channel, value) in enumerate(writes)`). -/
def writeRowsFrom {W C : Type} (wser : Serde W C) (typeName : W → String)
    (tid ns cpid task_id : String) :
    Nat → List (String × W) → List (WriteRow C)
  | _, [] => []
  | i, (channel, value) :: rest =>
      { thread_id := tid, checkpoint_ns := ns, checkpoint_id := cpid,
        task_id := task_id, idx := i, channel := channel,
        type_tag := typeName value, blob := wser.dumps value } ::
        writeRowsFrom wser typeName tid ns cpid task_id (i + 1) rest

/-- `ClickHouseCheckpointer.put_writes` (checkpointer.py lines 54-79). -/
def ckptPutWrites {B C W : Type} (wser : Serde W C) (typeName : W → String)
    (db : CkptDb B C) (config : RunCfg) (writes : List (String × W))
    (task_id : String) : CkptDb B C :=
  let rows := writeRowsFrom wser typeName config.thread_id
    config.checkpoint_ns ((config.checkpoint_id).getD "") task_id 0 writes
  { db with checkpoint_writes := db.checkpoint_writes ++ rows }

/-- `SELECT … FROM checkpoints FINAL … LIMIT 1` over rows with one
`(thread_id, ns, checkpoint_id)` key, or `ORDER BY created_at DESC
LIMIT 1` over several: the `ReplacingMergeTree(created_at)` engine
keeps, per key, the row with the greatest `created_at` (later insert
preferred on ties), and the most recent one is selected. -/
def pickLatest {B : Type} : List (CPRow B) → Option (CPRow B)
  | [] => none
  | r :: rest =>
      match pickLatest rest with
      | none => some r
      | some r' => if r'.created_at ≥ r.created_at then some r' else some r

/-- Stable insertion into a list sorted by `idx`. -/
def insertByIdx {C : Type} : List (WriteRow C) → WriteRow C →
    List (WriteRow C)
  | [], w => [w]
  | x :: xs, w =>
      if w.idx < x.idx then w :: x :: xs else x :: insertByIdx xs w

/-- `ORDER BY idx ASC` as a stable sort. -/
def sortByIdx {C : Type} (l : List (WriteRow C)) : List (WriteRow C) :=
  l.foldl insertByIdx []

/-- `ClickHouseCheckpointer.get_tuple` (checkpointer.py lines 81-157):
fetch the checkpoint row (by explicit id when the config carries a
truthy one, else the most recent for the thread), then the pending
writes against that checkpoint id ordered by sequence index. -/
def ckptGetTuple {V B C M W : Type} (ser : Serde (Checkpoint V) B)
    (mser : MetaSerde M) (wser : Serde W C) (db : CkptDb B C)
    (config : RunCfg) : Option (CheckpointTuple V M W) :=
  let tid := config.thread_id
  let ns := config.checkpoint_ns
  let cid := (config.checkpoint_id).getD ""
  let rows :=
    if cid ≠ "" then
      db.checkpoints.filter (fun r =>
        r.thread_id == tid && r.checkpoint_ns == ns &&
          r.checkpoint_id == cid)
    else
      db.checkpoints.filter (fun r =>
        r.thread_id == tid && r.checkpoint_ns == ns)
  match pickLatest rows with
  | none => none
  | some row =>
      let wrows := sortByIdx (db.checkpoint_writes.filter (fun w =>
        w.thread_id == tid && w.checkpoint_ns == ns &&
          w.checkpoint_id == row.checkpoint_id))
      some
        { config := ⟨tid, ns, some row.checkpoint_id⟩
          checkpoint := ser.loads row.checkpoint_data
          metadata :=
            if row.metadata_data ≠ "" then mser.loads row.metadata_data
            else mser.empty
          parent_config :=
            if row.parent_checkpoint_id ≠ "" then
              some ⟨tid, ns, some row.parent_checkpoint_id⟩
            else none
          pending_writes := wrows.map (fun w =>
            (w.task_id, w.channel, wser.loads w.blob)) }

/-! ## Theorems -/

theorem dlookup_dinsert {α : Type} (d : List (String × α)) (k : String)
    (v : α) (k' : String) :
    dlookup (dinsert d k v) k' = if k = k' then some v else dlookup d k' := by
  induction d with
  | nil => simp [dinsert, dlookup]
  | cons hd tl ih =>
      obtain ⟨k₀, v₀⟩ := hd
      by_cases h₀ : k₀ = k
      · subst h₀
        by_cases h₁ : k₀ = k'
        · subst h₁; simp [dinsert, dlookup]
        · simp [dinsert, dlookup, h₁]
      · by_cases h₁ : k₀ = k'
        · subst h₁
          have hne : ¬ k = k₀ := fun hh => h₀ hh.symm
          simp [dinsert, dlookup, h₀, hne]
        · simp [dinsert, dlookup, h₀, h₁, ih]

theorem dlookup_eq_none {α : Type} (d : List (String × α)) (k : String)
    (h : k ∉ d.map Prod.fst) : dlookup d k = none := by
  induction d with
  | nil => simp [dlookup]
  | cons hd tl ih =>
      obtain ⟨k₀, v₀⟩ := hd
      simp only [List.map_cons, List.mem_cons, not_or] at h
      have hne : ¬ k₀ = k := fun hh => h.1 hh.symm
      simp only [dlookup, if_neg hne]
      exact ih h.2

/-- Lookup after an `|=` merge: a key bound in the update takes the
update's value, any other key keeps the old value.  The update is
assumed to have pairwise-distinct keys, as a real Python dict does. -/
theorem dlookup_dictIor {α : Type} (old new : List (String × α)) (k : String)
    (hnd : (new.map Prod.fst).Nodup) :
    dlookup (dictIor old new) k =
      match dlookup new k with
      | some v => some v
      | none => dlookup old k := by
  induction new generalizing old with
  | nil => simp [dictIor, dlookup]
  | cons hd tl ih =>
      obtain ⟨k₀, v₀⟩ := hd
      simp only [List.map_cons, List.nodup_cons] at hnd
      have htl := ih (dinsert old k₀ v₀) hnd.2
      by_cases hk : k₀ = k
      · subst hk
        have hnone : dlookup tl k₀ = none := dlookup_eq_none tl k₀ hnd.1
        simp only [dictIor, List.foldl_cons] at *
        rw [htl, hnone, dlookup_dinsert]
        simp [dlookup]
      · simp only [dictIor, List.foldl_cons] at *
        rw [htl, dlookup_dinsert]
        simp [dlookup, hk]

theorem iterInv_step {c c' : Node × RouteState} (h : WStep c c')
    (hinv : iterInv c) : iterInv c' := by
  cases h with
  | think s r =>
      refine ⟨fun _ => ?_, ?_⟩ <;> simp [thinkStep]
  | tool s => exact ⟨fun h => by cases h <;> simp_all, hinv.2⟩
  | generate s =>
      have h2 : s.iteration ≤ 2 := hinv.1 (Or.inl rfl)
      exact ⟨fun h => by cases h <;> simp_all, by simpa using h2⟩
  | execute s solved =>
      refine ⟨fun h => ?_, hinv.2⟩
      unfold afterExecute at h
      split at h
      · rcases h with h | h <;> simp_all
      · split at h
        · rcases h with h | h <;> simp_all
        · have hlt : ¬ 3 ≤ s.iteration := by assumption
          show s.iteration ≤ 2
          omega
  | reflect s => exact ⟨fun _ => hinv.1 (Or.inr rfl), hinv.2⟩
  | synthesize s resp => exact ⟨fun h => by cases h <;> simp_all, hinv.2⟩
  | lesson s => exact ⟨fun h => by cases h <;> simp_all, hinv.2⟩
  | memory s => exact ⟨fun h => by cases h <;> simp_all, hinv.2⟩

theorem iterInv_reach {c c' : Node × RouteState} (h : WReach c c')
    (hinv : iterInv c) : iterInv c' := by
  induction h with
  | refl => exact hinv
  | tail _ hstep ih => exact iterInv_step hstep ih

/-- C1: after `execute` the engine goes to `synthesize` iff `is_solved`
is true or `iteration ≥ 3`, and otherwise to `reflect`; `reflect`
always returns to `generate_code`; `generate_code` is the only node
that increments `iteration` (by exactly 1; `think` resets it to 0 and
every other node leaves it unchanged); consequently, in a run started
with `iteration = 0`, `iteration` never exceeds 3 in any reachable
configuration — in particular in none reached before `synthesize`. -/
theorem execute_routing_iteration_bound :
    (∀ s : RouteState,
        (afterExecute s = Node.synthesize ↔
          (s.is_solved = true ∨ s.iteration ≥ 3)) ∧
        (afterExecute s ≠ Node.synthesize → afterExecute s = Node.reflect)) ∧
    (∀ (s : RouteState) (c' : Node × RouteState),
        WStep (Node.reflect, s) c' → c' = (Node.generate_code, s)) ∧
    (∀ (s : RouteState) (c' : Node × RouteState),
        WStep (Node.generate_code, s) c' →
          c'.2.iteration = s.iteration + 1) ∧
    (∀ (n : Node) (s : RouteState) (c' : Node × RouteState),
        WStep (n, s) c' → n ≠ Node.generate_code →
          c'.2.iteration = if n = Node.think then 0 else s.iteration) ∧
    (∀ (s₀ : RouteState) (c : Node × RouteState),
        s₀.iteration = 0 → WReach (Node.think, s₀) c →
          c.2.iteration ≤ 3) := by
  refine ⟨fun s => ⟨?_, ?_⟩, ?_, ?_, ?_, ?_⟩
  · unfold afterExecute
    constructor
    · intro h
      by_cases hs : s.is_solved
      · exact Or.inl hs
      · right
        rw [if_neg hs] at h
        by_contra hlt
        rw [if_neg hlt] at h
        exact Node.noConfusion h
    · rintro (h | h)
      · simp [h]
      · by_cases hs : s.is_solved <;> simp [hs, h]
  · intro h
    unfold afterExecute
    by_cases hs : s.is_solved
    · exact absurd (by simp [afterExecute, hs]) h
    · rw [if_neg hs]
      by_cases h3 : s.iteration ≥ 3
      · exact absurd (by simp [afterExecute, hs, h3]) h
      · rw [if_neg h3]
  · intro s c' h
    cases h; rfl
  · intro s c' h
    cases h; rfl
  · intro n s c' h hne
    cases h with
    | think s r => simp [thinkStep]
    | generate s => exact absurd rfl hne
    | _ => simp
  · intro s₀ c h0 hreach
    have hinv : iterInv (Node.think, s₀) :=
      ⟨fun h => by rcases h with h | h <;> exact Node.noConfusion h,
       by show s₀.iteration ≤ 3; omega⟩
    exact (iterInv_reach hreach hinv).2

/-- Witness for C1: a concrete three-step run (`think` decides code is
needed, `generate_code` runs once) reaching `execute` with
`iteration = 1`, whose bound the theorem discharges. -/
theorem execute_routing_iteration_bound_witness :
    ((Node.execute,
        (⟨true, "none", 0, false, 1, ""⟩ : RouteState)) :
      Node × RouteState).2.iteration ≤ 3 := by
  have h1 : WStep (Node.think, (⟨false, "none", 0, false, 0, ""⟩ : RouteState))
      (Node.generate_code, (⟨true, "none", 0, false, 0, ""⟩ : RouteState)) := by
    have he :
        ((afterThink (thinkStep ⟨false, "none", 0, false, 0, ""⟩
            ⟨true, "none", ""⟩),
          thinkStep ⟨false, "none", 0, false, 0, ""⟩ ⟨true, "none", ""⟩) :
          Node × RouteState) =
        (Node.generate_code, ⟨true, "none", 0, false, 0, ""⟩) := by decide
    exact he ▸ WStep.think _ ⟨true, "none", ""⟩
  have h2 : WStep
      (Node.generate_code, (⟨true, "none", 0, false, 0, ""⟩ : RouteState))
      (Node.execute, (⟨true, "none", 0, false, 1, ""⟩ : RouteState)) :=
    WStep.generate _
  exact execute_routing_iteration_bound.2.2.2.2
    ⟨false, "none", 0, false, 0, ""⟩ _ rfl
    (Relation.ReflTransGen.tail (Relation.ReflTransGen.tail
      Relation.ReflTransGen.refl h1) h2)

/-- C2: the merge rule of the `files` channel is union with overwrite of
overlapping keys (lookup in the merged dict prefers the update), never
full replacement: `{a:1}` then `{b:2}` yields `{a:1, b:2}`, and a later
update `{a:3}` yields `{a:3, b:2}`. -/
theorem files_merge_is_union :
    (∀ (old new : List (String × String)) (k : String),
        (new.map Prod.fst).Nodup →
        (∀ v, dlookup new k = some v → dlookup (dictIor old new) k = some v) ∧
        (dlookup new k = none → dlookup (dictIor old new) k = dlookup old k)) ∧
    dictIor [] [("a", "1")] = [("a", "1")] ∧
    dictIor (dictIor [] [("a", "1")]) [("b", "2")] =
      [("a", "1"), ("b", "2")] ∧
    dictIor (dictIor (dictIor [] [("a", "1")]) [("b", "2")]) [("a", "3")] =
      [("a", "3"), ("b", "2")] :=
by
  refine ⟨fun old new k hnd => ⟨fun v hv => ?_, fun hn => ?_⟩,
    by decide, by decide, by decide⟩
  · rw [dlookup_dictIor old new k hnd, hv]
  · rw [dlookup_dictIor old new k hnd, hn]

/-- Witness for C2: the union-lookup law at a concrete overlap. -/
theorem files_merge_is_union_witness :
    dlookup (dictIor [("a", "1"), ("c", "9")] [("a", "3")]) "a" = some "3" ∧
    dlookup (dictIor [("a", "1"), ("c", "9")] [("a", "3")]) "c" = some "9" := by
  constructor
  · exact (files_merge_is_union.1 [("a", "1"), ("c", "9")] [("a", "3")] "a"
      (by decide)).1 "3" (by decide)
  · rw [(files_merge_is_union.1 [("a", "1"), ("c", "9")] [("a", "3")] "c"
      (by decide)).2 (by decide)]
    decide

/-- C4: in `think`, when `tool_usage_count` is already ≥ 3, a decision
that names a tool and does not request code is downgraded to
`tool_choice = "none"` (with the fallback message supplied when the
draft response is empty), and the router sends the run to `lesson`,
not to the tool node. -/
theorem tool_limit_downgrade (s : RouteState) (r : ThinkerResult)
    (h3 : s.tool_usage_count ≥ 3) (hn : r.tool_choice ≠ "none")
    (he : r.tool_choice ≠ "") (hc : r.needs_code = false) :
    (thinkStep s r).tool_choice = "none" ∧
    (r.response = "" → (thinkStep s r).response =
      "I cannot process further tool requests due to loop limits.") ∧
    afterThink (thinkStep s r) = Node.lesson ∧
    afterThink (thinkStep s r) ≠ Node.tool_node := by
  have hcond : r.tool_choice ≠ "none" ∧ r.tool_choice ≠ "" ∧
      s.tool_usage_count ≥ 3 := ⟨hn, he, h3⟩
  refine ⟨?_, fun hr => ?_, ?_, ?_⟩ <;>
    simp [thinkStep, toolSafety, afterThink, hcond, hc, *]

theorem subOf_iff (needle hay : List Char) :
    subOf needle hay = true ↔ ∃ a b, hay = a ++ needle ++ b := by
  induction hay with
  | nil =>
      simp only [subOf, List.isEmpty_iff]
      constructor
      · intro h; exact ⟨[], [], by simp [h]⟩
      · rintro ⟨a, b, hab⟩
        rcases List.append_eq_nil.mp (List.append_eq_nil.mp hab.symm).1
          with ⟨_, h2⟩
        exact h2
  | cons c rest ih =>
      simp only [subOf, Bool.or_eq_true]
      constructor
      · rintro (h | h)
        · obtain ⟨t, ht⟩ := List.isPrefixOf_iff_prefix.mp h
          exact ⟨[], t, by simp [← ht]⟩
        · obtain ⟨a, b, hab⟩ := ih.mp h
          exact ⟨c :: a, b, by simp [hab]⟩
      · rintro ⟨a, b, hab⟩
        cases a with
        | nil =>
            left
            exact List.isPrefixOf_iff_prefix.mpr ⟨b, by simpa using hab.symm⟩
        | cons a₀ arest =>
            right
            apply ih.mpr
            refine ⟨arest, b, ?_⟩
            have h' := hab
            simp only [List.cons_append, List.cons.injEq] at h'
            exact h'.2

theorem logScan_fst_from (logs : List LogEntry)
    (he : Bool) (outs errs : List String) :
    (logs.foldl logScanStep (he, outs, errs)).1 =
      (he || logs.any isFailureEntry) := by
  induction logs generalizing he outs errs with
  | nil => simp
  | cons l rest ih =>
      simp only [List.foldl_cons, List.any_cons]
      by_cases h₁ : l.type = "error"
      · rw [show logScanStep (he, outs, errs) l =
            (true, outs, errs ++ [l.content]) from by simp [logScanStep, h₁]]
        rw [ih]
        simp [isFailureEntry, h₁]
      · by_cases h₂ : l.type = "stdout"
        · have h₃ : ¬ l.type = "stderr" := by simp [h₂]
          rw [show logScanStep (he, outs, errs) l =
              (he, outs ++ [l.content], errs) from by
            simp [logScanStep, h₁, h₂]]
          rw [ih]
          simp [isFailureEntry, h₁, h₃]
        · by_cases h₃ : l.type = "stderr"
          · rw [show logScanStep (he, outs, errs) l =
                (he || stderrHasMarker l.content, outs,
                  errs ++ [l.content]) from by simp [logScanStep, h₁, h₂, h₃]]
            rw [ih]
            simp [isFailureEntry, h₁, h₃, Bool.or_assoc]
          · rw [show logScanStep (he, outs, errs) l = (he, outs, errs) from by
              simp [logScanStep, h₁, h₂, h₃]]
            rw [ih]
            simp [isFailureEntry, h₁, h₂, h₃]

theorem logScan_fst (logs : List LogEntry) :
    (logScan logs).1 = logs.any isFailureEntry := by
  simpa using logScan_fst_from logs false [] []

/-- Witness for C4: a concrete exhausted-budget tool request. -/
theorem tool_limit_downgrade_witness :
    (thinkStep ⟨false, "none", 3, false, 0, ""⟩ ⟨false, "sql_db", ""⟩).tool_choice
        = "none" ∧
    afterThink (thinkStep ⟨false, "none", 3, false, 0, ""⟩ ⟨false, "sql_db", ""⟩)
        = Node.lesson := by
  have h := tool_limit_downgrade ⟨false, "none", 3, false, 0, ""⟩
    ⟨false, "sql_db", ""⟩ (by decide) (by decide) (by decide) rfl
  exact ⟨h.1, h.2.2.1⟩

/-- C3 (refuted — the code contradicts its own `# Reset execution
state` comment): merging think's update resets `commands`,
`execution_result`, `retrieved_files` and `iteration`, but the
`operator.ior` / `operator.add` reducers turn the `{}` / `[]` values
for `files`, `execution_logs` and `reflections` into no-ops, so those
three fields keep whatever they held before; on a state with
`files = {"a.py": "x"}` the merged `files` is still `{"a.py": "x"}`,
not the empty map the claim asserts. -/
theorem think_reset_incomplete :
    (∀ s : ExecFields, thinkResetMerge s =
      { files := s.files, commands := [],
        execution_logs := s.execution_logs, execution_result := "",
        retrieved_files := [], reflections := s.reflections,
        iteration := 0 }) ∧
    (thinkResetMerge
        ⟨[("a.py", "x")], ["python3 a.py"], [⟨7, "stdout", "hi"⟩], "hi",
          [("out.txt", "path")], ["use smaller steps"], 2⟩).files =
      [("a.py", "x")] ∧
    (thinkResetMerge
        ⟨[("a.py", "x")], ["python3 a.py"], [⟨7, "stdout", "hi"⟩], "hi",
          [("out.txt", "path")], ["use smaller steps"], 2⟩).execution_logs =
      [⟨7, "stdout", "hi"⟩] ∧
    (thinkResetMerge
        ⟨[("a.py", "x")], ["python3 a.py"], [⟨7, "stdout", "hi"⟩], "hi",
          [("out.txt", "path")], ["use smaller steps"], 2⟩).reflections =
      ["use smaller steps"] ∧
    (thinkResetMerge
        ⟨[("a.py", "x")], ["python3 a.py"], [⟨7, "stdout", "hi"⟩], "hi",
          [("out.txt", "path")], ["use smaller steps"], 2⟩).commands = [] ∧
    (thinkResetMerge
        ⟨[("a.py", "x")], ["python3 a.py"], [⟨7, "stdout", "hi"⟩], "hi",
          [("out.txt", "path")], ["use smaller steps"], 2⟩).iteration = 0 :=
  ⟨fun s => by simp [thinkResetMerge, dictIor],
   by decide, by decide, by decide, by decide, by decide⟩

/-- C5: with a non-empty command list, `execute` sets `is_solved` to
false exactly when some sandbox log entry has type `error`, or has
type `stderr` with a recognized failure-marker substring in its
content; when no entry matches, `is_solved` is set to true. -/
theorem execute_marks_solved (now : Nat)
    (sandboxRes : List LogEntry × List (String × String))
    (commands : List String) (hne : commands ≠ []) :
    ((executeNode now sandboxRes commands).is_solved = false ↔
      ∃ l ∈ sandboxRes.1, l.type = "error" ∨
        (l.type = "stderr" ∧ stderrHasMarker l.content = true)) ∧
    ((∀ l ∈ sandboxRes.1, ¬(l.type = "error" ∨
        (l.type = "stderr" ∧ stderrHasMarker l.content = true))) →
      (executeNode now sandboxRes commands).is_solved = true) := by
  have hkey : (executeNode now sandboxRes commands).is_solved
      = !(sandboxRes.1.any isFailureEntry) := by
    simp only [executeNode, if_neg hne]
    simp [logScan_fst]
  have hiff : ∀ l : LogEntry, isFailureEntry l = true ↔
      (l.type = "error" ∨ (l.type = "stderr" ∧
        stderrHasMarker l.content = true)) := by
    intro l
    simp [isFailureEntry]
  constructor
  · rw [hkey]
    simp only [Bool.not_eq_false', List.any_eq_true]
    constructor
    · rintro ⟨l, hl, hp⟩
      exact ⟨l, hl, (hiff l).mp hp⟩
    · rintro ⟨l, hl, hp⟩
      exact ⟨l, hl, (hiff l).mpr hp⟩
  · intro hall
    rw [hkey]
    simp only [Bool.not_eq_true', List.any_eq_false]
    intro l hl
    simp only [Bool.not_eq_true]
    by_contra hc
    exact hall l hl ((hiff l).mp (by simpa using hc))

/-- Witness for C5: a single `stderr` entry containing `Traceback`
makes the concrete execution unsolved. -/
theorem execute_marks_solved_witness :
    (executeNode 0
        ([⟨1, "stderr", "Traceback (most recent call last):"⟩], [])
        ["python3 main.py"]).is_solved = false := by
  have h := execute_marks_solved 0
    (⟨[⟨1, "stderr", "Traceback (most recent call last):"⟩], []⟩)
    ["python3 main.py"] (by decide)
  exact h.1.mpr ⟨⟨1, "stderr", "Traceback (most recent call last):"⟩,
    by simp, Or.inr ⟨rfl, by decide⟩⟩

/-- C10: with an empty command list `execute` returns, independently of
anything the sandbox could have produced, an update whose only log
entry is the `error`-typed "No commands generated." entry, with empty
execution result, `is_solved = false` and no `retrieved_files` key;
with the iteration budget not yet exhausted the router then sends the
run to `reflect`. -/
theorem execute_empty_commands (now : Nat)
    (res res' : List LogEntry × List (String × String)) (s : RouteState)
    (hiter : s.iteration < 3) :
    executeNode now res [] =
      { execution_logs := [⟨now, "error", "No commands generated."⟩]
        execution_result := ""
        execution_error := "No commands generated."
        is_solved := false
        retrieved_files := none } ∧
    executeNode now res [] = executeNode now res' [] ∧
    afterExecute { s with is_solved := false } = Node.reflect := by
  refine ⟨by simp [executeNode], by simp [executeNode], ?_⟩
  simp only [afterExecute]
  rw [if_neg (by simp), if_neg (by show ¬ s.iteration ≥ 3; omega)]

/-- Witness for C10: a concrete empty-commands cycle at iteration 1. -/
theorem execute_empty_commands_witness :
    (executeNode 5 ([], []) []).is_solved = false ∧
    afterExecute (⟨true, "none", 0, false, 1, ""⟩ : RouteState) =
      Node.reflect := by
  have h := execute_empty_commands 5 ([], []) ([], [])
    ⟨true, "none", 0, true, 1, ""⟩ (by decide)
  constructor
  · rw [h.1]
  · exact h.2.2

/-- C9: the sandbox's command filter drops exactly the commands whose
stripped form starts with one of the redundant package-manager
update/install prefixes, keeps every other command in its original
relative order (the kept commands are the `filter` of the input, a
sublist), and appends ` --break-system-packages` to each kept
package-install command that lacks the flag while leaving all other
kept commands untouched. -/
theorem sandbox_command_filter :
    (∀ cmds : List String, filterCommands cmds =
      (cmds.filter (fun c => !isSkipped c)).map addBreakFlag) ∧
    (∀ cmds : List String, (cmds.filter (fun c => !isSkipped c)).Sublist cmds) ∧
    (∀ cmd : String, isSkipped cmd = true ↔
      ∃ p ∈ skipPrefixes, p.toList.isPrefixOf (pyStrip cmd).toList = true) ∧
    (∀ cmd : String,
      (strContains (pyStrip cmd) "pip install" = true ∨
        strContains (pyStrip cmd) "pip3 install" = true) →
      strContains (pyStrip cmd) "--break-system-packages" = false →
      addBreakFlag cmd = pyStrip cmd ++ " --break-system-packages") ∧
    (∀ cmd : String,
      strContains (pyStrip cmd) "--break-system-packages" = true →
      addBreakFlag cmd = cmd) ∧
    (∀ cmd : String,
      strContains (pyStrip cmd) "pip install" = false →
      strContains (pyStrip cmd) "pip3 install" = false →
      addBreakFlag cmd = cmd) := by
  refine ⟨?_, ?_, ?_, ?_, ?_, ?_⟩
  · intro cmds
    induction cmds with
    | nil => rfl
    | cons c rest ih =>
        by_cases h : isSkipped c = true
        · simp [filterCommands, h, ih]
        · simp only [Bool.not_eq_true] at h
          simp [filterCommands, h, ih]
  · intro cmds
    exact List.filter_sublist cmds
  · intro cmd
    simp [isSkipped, List.any_eq_true]
  · intro cmd hp hf
    unfold addBreakFlag
    rcases hp with hp | hp <;> simp [hp, hf]
  · intro cmd hf
    unfold addBreakFlag
    simp [hf]
  · intro cmd h1 h2
    unfold addBreakFlag
    simp [h1, h2]

/-- Witness for C9: a concrete mixed command list — the update command
is dropped, the `pip install` command gets the flag, the run command is
untouched. -/
theorem sandbox_command_filter_witness :
    filterCommands
        ["apt-get update", "pip install requests", "python3 main.py"] =
      ["pip install requests --break-system-packages", "python3 main.py"] ∧
    addBreakFlag "pip install requests" =
      "pip install requests --break-system-packages" := by
  have h := sandbox_command_filter.2.2.2.1 "pip install requests"
    (Or.inl (by decide)) (by decide)
  constructor
  · rw [sandbox_command_filter.1
      ["apt-get update", "pip install requests", "python3 main.py"]]
    decide
  · rw [h]
    decide

theorem replFirstAux_spec (old new : List Char) (hne : old ≠ [])
    (a : List Char) :
    ∀ (hay b : List Char), hay = a ++ old ++ b →
      (∀ a' b' : List Char, hay = a' ++ old ++ b' →
        a.length ≤ a'.length) →
      replFirstAux old new hay = a ++ new ++ b := by
  induction a with
  | nil =>
      intro hay b hhay _
      subst hhay
      obtain ⟨o₀, otl, rfl⟩ := List.exists_cons_of_ne_nil hne
      have hh : ([] : List Char) ++ (o₀ :: otl) ++ b = o₀ :: (otl ++ b) := by
        simp
      rw [hh]
      simp only [replFirstAux]
      rw [if_pos (show (o₀ :: otl).isPrefixOf (o₀ :: (otl ++ b)) = true from
        List.isPrefixOf_iff_prefix.mpr ⟨b, rfl⟩)]
      have hd : (o₀ :: (otl ++ b)).drop (o₀ :: otl).length = b := by
        rw [show o₀ :: (otl ++ b) = (o₀ :: otl) ++ b from rfl]
        exact List.drop_left _ _
      rw [hd]
      simp
  | cons a₀ atl ih =>
      intro hay b hhay hmin
      subst hhay
      have hh : (a₀ :: atl) ++ old ++ b = a₀ :: (atl ++ old ++ b) := by simp
      rw [hh]
      simp only [replFirstAux]
      rw [if_neg ?hnp]
      case hnp =>
        intro hpre
        obtain ⟨t, ht⟩ := List.isPrefixOf_iff_prefix.mp hpre
        have := hmin [] t (by simpa using ht.symm)
        simp at this
      have hrec := ih (atl ++ old ++ b) b rfl
        (fun a' b' h' => by
          have := hmin (a₀ :: a') b' (by simp [h'])
          simpa using this)
      rw [hrec]
      simp

/-- C7: for a file present in the file system, if `old_text` does not
occur verbatim in its content the edit tool returns an `"Error…"`
message (one of its two verbatim-mismatch texts — in particular also
when the whitespace-trimmed variant does occur) and leaves the file
system unchanged; if `old_text` does occur, the file is rewritten with
exactly the first occurrence replaced (any earlier-positioned
decomposition bound witnesses that only the leftmost match is
spliced). -/
theorem edit_file_first_occurrence (fs : List (String × String))
    (path old_text new_text content : String)
    (hc : dlookup fs path = some content) :
    (strContains content old_text = false →
      (edit_file fs path old_text new_text).2 = fs ∧
      ((edit_file fs path old_text new_text).1 =
        "Error: 'old_text' not found in " ++ path ++
          ". Please check indentation/whitespace exact match." ∨
       (edit_file fs path old_text new_text).1 =
        "Error: Exact 'old_text' match failed. Be precise with whitespace.")) ∧
    (strContains content old_text = true →
      dlookup (edit_file fs path old_text new_text).2 path =
        some (pyReplaceFirst content old_text new_text)) ∧
    (∀ a b : List Char, old_text.toList ≠ [] →
      content.toList = a ++ old_text.toList ++ b →
      (∀ a' b' : List Char, content.toList = a' ++ old_text.toList ++ b' →
        a.length ≤ a'.length) →
      (pyReplaceFirst content old_text new_text).toList =
        a ++ new_text.toList ++ b) := by
  refine ⟨fun habs => ?_, fun hocc => ?_, fun a b hne hdec hmin => ?_⟩
  · unfold edit_file
    rw [hc]
    simp only [habs]
    by_cases hstrip : strContains content (pyStrip old_text) = false
    · simp only [hstrip]
      exact ⟨rfl, Or.inl rfl⟩
    · simp only [Bool.not_eq_false] at hstrip
      simp only [hstrip]
      exact ⟨rfl, Or.inr rfl⟩
  · unfold edit_file
    rw [hc]
    have hnf : ¬ strContains content old_text = false := by simp [hocc]
    simp only [if_neg hnf]
    show dlookup (dinsert fs path (pyReplaceFirst content old_text new_text))
      path = some (pyReplaceFirst content old_text new_text)
    rw [dlookup_dinsert]
    simp
  · unfold pyReplaceFirst
    rw [if_neg (by simpa using hne)]
    show replFirstAux old_text.toList new_text.toList content.toList = _
    exact replFirstAux_spec old_text.toList new_text.toList hne a
      content.toList b hdec hmin

/-- Witness for C7: editing `"abab"` with `old_text = "ab"` replaces
only the first occurrence, and a missing `old_text` leaves the file
untouched. -/
theorem edit_file_first_occurrence_witness :
    dlookup (edit_file [("f.py", "abab")] "f.py" "ab" "X").2 "f.py" =
      some (pyReplaceFirst "abab" "ab" "X") ∧
    (pyReplaceFirst "abab" "ab" "X").toList =
      [] ++ "X".toList ++ "ab".toList ∧
    (edit_file [("f.py", "abab")] "f.py" "zz" "X").2 =
      [("f.py", "abab")] := by
  have h := edit_file_first_occurrence [("f.py", "abab")] "f.py" "ab" "X"
    "abab" (by decide)
  have h' := edit_file_first_occurrence [("f.py", "abab")] "f.py" "zz" "X"
    "abab" (by decide)
  refine ⟨h.2.1 (by decide), ?_, (h'.1 (by decide)).1⟩
  refine h.2.2 [] "ab".toList (by decide) (by decide) ?_
  intro a' b' _
  exact Nat.zero_le _

/-- C6 (amended): the dispatcher is total — every call returns a
string, never an exception — and every dispatcher-level failure
(invalid JSON payload, missing required argument, unknown tool name) is
returned with the `"ERROR: "` prefix; handler-level failures, however,
are returned as descriptive strings with other prefixes — in
particular a missing file yields `"Error: File '…' not found."`. -/
theorem dispatcher_error_strings (env : ToolEnv)
    (fs : List (String × String)) (args : List (String × PyVal))
    (raw name p : String) :
    (env.parseJson raw = none →
      (execute_tool env fs name (.raw raw)).1 =
        "ERROR: Invalid JSON arguments: " ++ raw) ∧
    (name ∉ (["sql_db", "rag_search", "search_documents", "read_file",
        "write_file", "edit_file", "list_files",
        "run_command"] : List String) →
      (execute_tool env fs name (.dict args)).1 =
        "ERROR: Unknown tool '" ++ name ++ "'") ∧
    (pyTruthy (dlookup args "query") = false →
      (execute_tool env fs "sql_db" (.dict args)).1 =
        "ERROR: Missing 'query'") ∧
    (pyTruthy (dlookup args "path") = false →
      (execute_tool env fs "read_file" (.dict args)).1 =
        "ERROR: Missing 'path'") ∧
    ((pyTruthy (dlookup args "path") = false ∨
        dlookup args "content" = none) →
      (execute_tool env fs "write_file" (.dict args)).1 =
        "ERROR: Missing 'path' or 'content'") ∧
    (dlookup args "path" = some (.str p) → p ≠ "" → dlookup fs p = none →
      (execute_tool env fs "read_file" (.dict args)).1 =
        "Error: File '" ++ p ++ "' not found.") := by
  refine ⟨fun hpj => ?_, fun hunk => ?_, fun hq => ?_, fun hp => ?_,
    fun hwc => ?_, fun hps hpe hmiss => ?_⟩
  · simp [execute_tool, hpj]
  · simp only [List.mem_cons, List.not_mem_nil, or_false, not_or] at hunk
    obtain ⟨h1, h2, h3, h4, h5, h6, h7, h8⟩ := hunk
    simp [execute_tool, execute_tool_core, h1, h2, h3, h4, h5, h6, h7, h8]
  · simp [execute_tool, execute_tool_core, hq]
  · simp [execute_tool, execute_tool_core, hp]
  · rcases hwc with h | h <;> simp [execute_tool, execute_tool_core, h]
  · simp [execute_tool, execute_tool_core, hps, argRender, read_file,
      hmiss, pyTruthy, hpe]

/-- C6 counterexample to the claim as stated: asking `read_file` for a
file that does not exist is a failure (a missing file), yet the
returned string is `"Error: File 'notes.txt' not found."`, which is not
prefixed with `"ERROR: "`. -/
theorem dispatcher_error_prefix_refuted :
    (execute_tool envStub [] "read_file"
        (.dict [("path", .str "notes.txt")])).1 =
      "Error: File 'notes.txt' not found." ∧
    (execute_tool envStub [] "read_file"
        (.dict [("path", .str "notes.txt")])).1.take 7 ≠ "ERROR: " := by
  constructor
  · decide
  · decide

/-- Witness for C6: an unknown tool name concretely produces the
`"ERROR: "`-prefixed message. -/
theorem dispatcher_error_strings_witness :
    (execute_tool envStub [] "fly_to_moon" (.dict [])).1 =
      "ERROR: Unknown tool 'fly_to_moon'" :=
  (dispatcher_error_strings envStub [] [] "" "fly_to_moon" "").2.1
    (by decide)

theorem insertByIdx_append {C : Type} (l : List (WriteRow C))
    (w : WriteRow C) (h : ∀ x ∈ l, ¬ w.idx < x.idx) :
    insertByIdx l w = l ++ [w] := by
  induction l with
  | nil => rfl
  | cons x xs ih =>
      simp only [insertByIdx]
      rw [if_neg (h x (by simp))]
      rw [ih (fun y hy => h y (by simp [hy]))]
      simp

theorem sortByIdx_of_sorted {C : Type} (l : List (WriteRow C))
    (h : List.Pairwise (fun a b => a.idx ≤ b.idx) l) : sortByIdx l = l := by
  induction l using List.reverseRecOn with
  | nil => rfl
  | append_singleton xs w ih =>
      have hp := List.pairwise_append.mp h
      unfold sortByIdx
      rw [List.foldl_append]
      show insertByIdx (sortByIdx xs) w = xs ++ [w]
      rw [ih hp.1]
      refine insertByIdx_append xs w (fun x hx => ?_)
      have := hp.2.2 x hx w (by simp)
      omega

theorem writeRowsFrom_fields {W C : Type} (wser : Serde W C)
    (tn : W → String) (tid ns cpid task : String) :
    ∀ (l : List (String × W)) (i : Nat) (r : WriteRow C),
      r ∈ writeRowsFrom wser tn tid ns cpid task i l →
      r.thread_id = tid ∧ r.checkpoint_ns = ns ∧ r.checkpoint_id = cpid ∧
        i ≤ r.idx := by
  intro l
  induction l with
  | nil =>
      intro i r h
      simp [writeRowsFrom] at h
  | cons cv rest ih =>
      intro i r h
      obtain ⟨ch, v⟩ := cv
      simp only [writeRowsFrom, List.mem_cons] at h
      rcases h with h | h
      · subst h
        exact ⟨rfl, rfl, rfl, le_refl _⟩
      · have := ih (i + 1) r h
        exact ⟨this.1, this.2.1, this.2.2.1, by omega⟩

theorem writeRowsFrom_pairwise {W C : Type} (wser : Serde W C)
    (tn : W → String) (tid ns cpid task : String) :
    ∀ (l : List (String × W)) (i : Nat),
      List.Pairwise (fun a b => a.idx ≤ b.idx)
        (writeRowsFrom wser tn tid ns cpid task i l) := by
  intro l
  induction l with
  | nil => intro i; simp [writeRowsFrom]
  | cons cv rest ih =>
      intro i
      obtain ⟨ch, v⟩ := cv
      simp only [writeRowsFrom]
      refine List.Pairwise.cons (fun r hr => ?_) (ih (i + 1))
      have := (writeRowsFrom_fields wser tn tid ns cpid task rest (i + 1)
        r hr).2.2.2
      show i ≤ r.idx
      omega

theorem writeRowsFrom_map {W C : Type} (wser : Serde W C)
    (tn : W → String) (tid ns cpid task : String)
    (hw : ∀ w, wser.loads (wser.dumps w) = w) :
    ∀ (l : List (String × W)) (i : Nat),
      (writeRowsFrom wser tn tid ns cpid task i l).map
          (fun w => (w.task_id, w.channel, wser.loads w.blob)) =
        l.map (fun cv => (task, cv.1, cv.2)) := by
  intro l
  induction l with
  | nil => intro i; rfl
  | cons cv rest ih =>
      intro i
      obtain ⟨ch, v⟩ := cv
      simp [writeRowsFrom, hw, ih (i + 1)]

/-- C8: storing a checkpoint with `put` under a fresh checkpoint id,
recording its pending writes with `put_writes`, and immediately
retrieving by the same thread id and checkpoint id with `get_tuple`
returns the identical checkpoint (hence identical `files`, `response`,
`citations` channel values) together with the pending writes in
sequence-index order — exactly the writes recorded, in the order they
were recorded (their `idx` column enumerates them and the read sorts by
it). -/
theorem checkpoint_roundtrip {V M W B C : Type}
    (ser : Serde (Checkpoint V) B) (mser : MetaSerde M) (wser : Serde W C)
    (typeName : W → String) (db : CkptDb B C) (tid ns : String)
    (parent : Option String) (cp : Checkpoint V) (meta : M)
    (writes : List (String × W)) (task_id : String) (now : Nat)
    (hser : ∀ c, ser.loads (ser.dumps c) = c)
    (hwser : ∀ w, wser.loads (wser.dumps w) = w)
    (hid : cp.id ≠ "")
    (hfresh : ∀ r ∈ db.checkpoints,
      ¬(r.thread_id = tid ∧ r.checkpoint_ns = ns ∧
        r.checkpoint_id = cp.id))
    (hfreshw : ∀ w ∈ db.checkpoint_writes,
      ¬(w.thread_id = tid ∧ w.checkpoint_ns = ns ∧
        w.checkpoint_id = cp.id)) :
    ∃ t : CheckpointTuple V M W,
      ckptGetTuple ser mser wser
          (ckptPutWrites wser typeName
            (ckptPut ser mser db ⟨tid, ns, parent⟩ cp meta now).1
            (ckptPut ser mser db ⟨tid, ns, parent⟩ cp meta now).2
            writes task_id)
          ⟨tid, ns, some cp.id⟩ = some t ∧
      t.checkpoint = cp ∧
      t.config = ⟨tid, ns, some cp.id⟩ ∧
      t.pending_writes = writes.map (fun cv => (task_id, cv.1, cv.2)) := by
  have hrows : (ckptPutWrites wser typeName
      (ckptPut ser mser db ⟨tid, ns, parent⟩ cp meta now).1
      (ckptPut ser mser db ⟨tid, ns, parent⟩ cp meta now).2
      writes task_id).checkpoints =
      db.checkpoints ++ [⟨tid, ns, cp.id, parent.getD "",
        ser.dumps cp,
        if mser.truthy meta then mser.dumps meta else "{}", now⟩] := rfl
  have hwrows : (ckptPutWrites wser typeName
      (ckptPut ser mser db ⟨tid, ns, parent⟩ cp meta now).1
      (ckptPut ser mser db ⟨tid, ns, parent⟩ cp meta now).2
      writes task_id).checkpoint_writes =
      db.checkpoint_writes ++
        writeRowsFrom wser typeName tid ns cp.id task_id 0 writes := rfl
  unfold ckptGetTuple
  simp only [hrows, hwrows]
  rw [if_pos (by simpa using hid)]
  have hfilterCp : (db.checkpoints ++ [(⟨tid, ns, cp.id, parent.getD "",
      ser.dumps cp,
      if mser.truthy meta then mser.dumps meta else "{}", now⟩ :
        CPRow B)]).filter (fun r =>
      r.thread_id == tid && r.checkpoint_ns == ns &&
        r.checkpoint_id == (some cp.id).getD "") =
      [⟨tid, ns, cp.id, parent.getD "", ser.dumps cp,
        if mser.truthy meta then mser.dumps meta else "{}", now⟩] := by
    rw [List.filter_append]
    have h1 : db.checkpoints.filter (fun r =>
        r.thread_id == tid && r.checkpoint_ns == ns &&
          r.checkpoint_id == (some cp.id).getD "") = [] := by
      rw [List.filter_eq_nil_iff]
      intro r hr
      have := hfresh r hr
      simp only [Option.getD_some, Bool.and_eq_true, beq_iff_eq]
      intro hcon
      exact this ⟨hcon.1.1, hcon.1.2, hcon.2⟩
    rw [h1]
    simp
  rw [hfilterCp]
  simp only [pickLatest]
  have hfilterW : (db.checkpoint_writes ++
      writeRowsFrom wser typeName tid ns cp.id task_id 0 writes).filter
        (fun w => w.thread_id == tid && w.checkpoint_ns == ns &&
          w.checkpoint_id == cp.id) =
      writeRowsFrom wser typeName tid ns cp.id task_id 0 writes := by
    rw [List.filter_append]
    have h1 : db.checkpoint_writes.filter (fun w =>
        w.thread_id == tid && w.checkpoint_ns == ns &&
          w.checkpoint_id == cp.id) = [] := by
      rw [List.filter_eq_nil_iff]
      intro w hw
      have := hfreshw w hw
      simp only [Bool.and_eq_true, beq_iff_eq]
      intro hcon
      exact this ⟨hcon.1.1, hcon.1.2, hcon.2⟩
    have h2 : (writeRowsFrom wser typeName tid ns cp.id task_id 0
        writes).filter (fun w =>
          w.thread_id == tid && w.checkpoint_ns == ns &&
            w.checkpoint_id == cp.id) =
        writeRowsFrom wser typeName tid ns cp.id task_id 0 writes := by
      rw [List.filter_eq_self]
      intro w hw
      have := writeRowsFrom_fields wser typeName tid ns cp.id task_id
        writes 0 w hw
      simp [this.1, this.2.1, this.2.2.1]
    rw [h1, h2]
    simp
  refine ⟨_, rfl, ?_, ?_, ?_⟩
  · simp [hser]
  · rfl
  · simp only [hfilterW]
    rw [sortByIdx_of_sorted _
      (writeRowsFrom_pairwise wser typeName tid ns cp.id task_id writes 0)]
    exact writeRowsFrom_map wser typeName tid ns cp.id task_id hwser
      writes 0

/-- Witness for C8: a concrete checkpoint (with `files`, `response` and
`citations` channel values) and two pending writes, stored into an
empty store under an identity serializer, round-trip exactly. -/
theorem checkpoint_roundtrip_witness :
    ∃ t : CheckpointTuple (List (String × String) × String × List String)
        Unit String,
      ckptGetTuple
          (Serde.mk id id :
            Serde (Checkpoint
              (List (String × String) × String × List String))
              (Checkpoint
                (List (String × String) × String × List String)))
          (MetaSerde.mk (fun _ => "{}") (fun _ => ()) (fun _ => false) ())
          (Serde.mk id id : Serde String String)
          (ckptPutWrites (Serde.mk id id : Serde String String)
            (fun _ => "str")
            (ckptPut
              (Serde.mk id id :
                Serde (Checkpoint
                  (List (String × String) × String × List String))
                  (Checkpoint
                    (List (String × String) × String × List String)))
              (MetaSerde.mk (fun _ => "{}") (fun _ => ()) (fun _ => false)
                ())
              (CkptDb.mk [] [] :
                CkptDb (Checkpoint
                  (List (String × String) × String × List String)) String)
              ⟨"t1", "", none⟩
              ⟨"ckpt-1", ([("main.py", "print(1)")], "done", ["main.py"])⟩
              () 42).1
            (ckptPut
              (Serde.mk id id :
                Serde (Checkpoint
                  (List (String × String) × String × List String))
                  (Checkpoint
                    (List (String × String) × String × List String)))
              (MetaSerde.mk (fun _ => "{}") (fun _ => ()) (fun _ => false)
                ())
              (CkptDb.mk [] [] :
                CkptDb (Checkpoint
                  (List (String × String) × String × List String)) String)
              ⟨"t1", "", none⟩
              ⟨"ckpt-1", ([("main.py", "print(1)")], "done", ["main.py"])⟩
              () 42).2
            [("files", "w1"), ("response", "w2")] "task-0")
          ⟨"t1", "", some "ckpt-1"⟩ = some t ∧
      t.checkpoint =
        ⟨"ckpt-1", ([("main.py", "print(1)")], "done", ["main.py"])⟩ ∧
      t.config = ⟨"t1", "", some "ckpt-1"⟩ ∧
      t.pending_writes =
        [("task-0", "files", "w1"), ("task-0", "response", "w2")] := by
  obtain ⟨t, h1, h2, h3, h4⟩ := checkpoint_roundtrip
    (Serde.mk id id :
      Serde (Checkpoint (List (String × String) × String × List String))
        (Checkpoint (List (String × String) × String × List String)))
    (MetaSerde.mk (fun _ => "{}") (fun _ => ()) (fun _ => false) ())
    (Serde.mk id id : Serde String String) (fun _ => "str")
    (CkptDb.mk [] [] :
      CkptDb (Checkpoint (List (String × String) × String × List String))
        String)
    "t1" "" none
    ⟨"ckpt-1", ([("main.py", "print(1)")], "done", ["main.py"])⟩ ()
    [("files", "w1"), ("response", "w2")] "task-0" 42
    (fun c => rfl) (fun w => rfl) (by decide)
    (fun r hr => absurd hr (by simp))
    (fun w hw => absurd hw (by simp))
  exact ⟨t, h1, h2, h3, by rw [h4]; rfl⟩

end Ouroboros
